import Mathlib

/-!
Shallow embedding of the image-browser logic of `src/macos_122/src/main.cpp`
(repository `luisarandas/imgui-app`).

The embedded functions are:
  * `EndsWith`        — main.cpp lines 111-113
  * `GetImageFiles`   — main.cpp lines 115-130
  * `getDataPath`     — main.cpp lines 36-80
  * `renderStep`      — one call of `ShowImageSubwindow`, main.cpp lines 132-212

The function-local `static` variables of `ShowImageSubwindow` become the
record `BrowserState`; the filesystem, the stb image decoder and the GL
texture-name generator become the oracle records `FileSystem` and
`RenderEnv`; observable side effects of one call (logging, drawing,
glDeleteTextures calls, the out-of-bounds vector access) are collected in
`RenderOutput`.
-/

namespace ImguiApp

/-- One entry yielded by `std::filesystem::directory_iterator`: its path
string and whether `entry.is_regular_file()` holds. -/
structure DirEntry where
  path : String
  isRegularFile : Bool
deriving Repr, DecidableEq

/-- Filesystem oracle: `std::filesystem::exists`, `std::filesystem::is_directory`
and the directory iterator, as read by `GetImageFiles` and `getDataPath`. -/
structure FileSystem where
  fsExists : String → Bool
  fsIsDir : String → Bool
  entries : String → List DirEntry

/-- main.cpp lines 111-113:
`str.size() >= suffix.size() && str.compare(str.size()-suffix.size(), suffix.size(), suffix) == 0`. -/
def EndsWith (str suffix : String) : Bool :=
  decide (suffix.length ≤ str.length) &&
    decide (str.toList.drop (str.length - suffix.length) = suffix.toList)

/-- main.cpp line 124: the suffix test applied to an entry's path string. -/
def hasImageSuffix (p : String) : Bool :=
  EndsWith p ".png" || EndsWith p ".jpg" || EndsWith p ".jpeg"

/-- main.cpp lines 115-130 (`GetImageFiles`): empty result unless the
directory exists and is a directory; otherwise the paths of the regular-file
entries whose path string ends in `.png`, `.jpg` or `.jpeg`, in enumeration
order. -/
def GetImageFiles (fs : FileSystem) (directory : String) : List String :=
  if !fs.fsExists directory || !fs.fsIsDir directory then []
  else
    ((fs.entries directory).filter
      (fun e => e.isRegularFile && hasImageSuffix e.path)).map (fun e => e.path)

/-- `operator/` on `std::filesystem::path`, for the paths built here. -/
def joinPath (a b : String) : String := a ++ "/" ++ b

/-- main.cpp lines 66-70: the fixed system-wide candidate directories. -/
def systemPaths : List String :=
  ["/usr/local/share/cmake_imgui_app_macos/data",
   "/opt/local/share/cmake_imgui_app_macos/data",
   "/usr/share/cmake_imgui_app_macos/data"]

/-- The test `std::filesystem::exists(p) && std::filesystem::is_directory(p)`
used at every step of `getDataPath`. -/
def existsDir (fs : FileSystem) (p : String) : Bool :=
  fs.fsExists p && fs.fsIsDir p

/-- main.cpp lines 52-79: the part of `getDataPath` after the Apple bundle
check.  Priority 2 and priority 3 both test `current_path() / "data"`
(line 59 sets `execDir` to the current working directory), then the system
paths are scanned in order, and the final fallback is `current_path() / "data"`
whether or not it exists. -/
def getDataPathRest (fs : FileSystem) (cwd : String) : String :=
  if existsDir fs (joinPath cwd "data") then joinPath cwd "data"
  else
    if existsDir fs (joinPath cwd "data") then joinPath cwd "data"
    else
      match systemPaths.find? (fun p => existsDir fs p) with
      | some p => p
      | none => joinPath cwd "data"

/-- main.cpp lines 36-80 (`getDataPath`).  `bundleResources` is
`some r` when `_NSGetExecutablePath` succeeded and `r` is the derived
`../Resources/data` path (Apple builds), `none` otherwise. -/
def getDataPath (fs : FileSystem) (bundleResources : Option String) (cwd : String) : String :=
  match bundleResources with
  | some resources =>
      if existsDir fs resources then resources else getDataPathRest fs cwd
  | none => getDataPathRest fs cwd

/-- The `static` locals of `ShowImageSubwindow` (main.cpp lines 133-141).
`texture = 0` is the GL null name and plays the role of "no texture".
`loadedFrom` is a ghost field recording the path last decoded into the held
texture (set on a successful load, cleared when the texture is zeroed); it
does not influence any computation and only serves to state invariants. -/
structure BrowserState where
  image_files : List String
  last_directory : String
  current_image_index : Nat
  texture : Nat
  img_width : Int
  img_height : Int
  loadedFrom : Option String
deriving Repr, DecidableEq

/-- The values of the statics before the first call: default-constructed
vector and string, `current_image_index = 0`, `texture = 0`, dims `0`. -/
def initState : BrowserState :=
  { image_files := [], last_directory := "", current_image_index := 0,
    texture := 0, img_width := 0, img_height := 0, loadedFrom := none }

/-- External collaborators of one `ShowImageSubwindow` call: the filesystem,
the decoder `stbi_load` (returning the native width and height on success,
`none` on failure) and the texture name `glGenTextures` would hand out. -/
structure RenderEnv where
  fs : FileSystem
  load : String → Option (Int × Int)
  newTexture : Nat

/-- Arguments of one `ShowImageSubwindow` call together with this frame's
button activations (`ImGui::Button("<-")` / `ImGui::Button("->")` results). -/
structure RenderInput where
  title : String
  directory : String
  prevClicked : Bool
  nextClicked : Bool
deriving Repr, DecidableEq

/-- Observable effects of one `ShowImageSubwindow` call. `crashed` models an
out-of-bounds `std::vector::operator[]` (undefined behavior), at line 144 or
at the caption read of line 208; `panelDrawn` records whether the
`BeginChild`/`EndChild` body was reached; `drawTexture`, `drawW`, `drawH`
are the values fed to `ImGui::Image` and the aspect-ratio division at lines
170-174; `thumbWidth` is the displayed width `150 * img_width / img_height`
computed over `ℚ` (0 standing in for the float NaN when `drawH = 0`);
`texturesReleased` counts `glDeleteTextures` calls on a nonzero name;
`caption` is the path printed by `ImGui::Text("Current media: %s", ...)` at
lines 207-208 (`none` when the list is empty or the read was out of
bounds). -/
structure RenderOutput where
  scanned : Bool
  loadAttempts : Nat
  loadSucceeded : Bool
  loggedFailure : Bool
  crashed : Bool
  panelDrawn : Bool
  drawTexture : Nat
  drawW : Int
  drawH : Int
  thumbWidth : ℚ
  texturesReleased : Nat
  caption : Option String
deriving Repr, DecidableEq

/-- main.cpp lines 135-138: on a directory change, re-scan and remember the
new directory; nothing else among the statics is touched. -/
def scannedState (env : RenderEnv) (inp : RenderInput) (s : BrowserState) : BrowserState :=
  if s.last_directory ≠ inp.directory then
    { s with image_files := GetImageFiles env.fs inp.directory,
             last_directory := inp.directory }
  else s

/-- Result of the lazy-load block, main.cpp lines 143-159. -/
inductive LoadOutcome where
  /-- `image_files[current_image_index]` indexed out of bounds (UB). -/
  | crash
  /-- `stbi_load` failed: logged, then `return;` before `BeginChild`. -/
  | failed (s : BrowserState)
  /-- fall through to the drawing code, with the number of decode attempts
  and whether one succeeded. -/
  | proceed (s : BrowserState) (attempts : Nat) (succeeded : Bool)
deriving Repr, DecidableEq

/-- main.cpp lines 143-159: if no texture is held and the list is nonempty,
decode `image_files[current_image_index]` and upload it; on success the
dims and the fresh texture name are stored, on failure the call logs and
returns early. -/
def loadPhase (env : RenderEnv) (s : BrowserState) : LoadOutcome :=
  if s.texture = 0 ∧ s.image_files ≠ [] then
    match s.image_files.get? s.current_image_index with
    | none => LoadOutcome.crash
    | some image_path =>
      match env.load image_path with
      | some (w, h) =>
          LoadOutcome.proceed
            { s with img_width := w, img_height := h,
                     texture := env.newTexture, loadedFrom := some image_path }
            1 true
      | none => LoadOutcome.failed s
  else LoadOutcome.proceed s 0 false

/-- main.cpp lines 187-193: the `<-` button.  When it was clicked and
`current_image_index > 0`, the index decrements, the texture is deleted and
zeroed.  The second component counts `glDeleteTextures` calls on a nonzero
name. -/
def prevButton (clicked : Bool) (s : BrowserState) : BrowserState × Nat :=
  if clicked then
    if 0 < s.current_image_index then
      ({ s with current_image_index := s.current_image_index - 1,
                texture := 0, loadedFrom := none },
       if s.texture = 0 then 0 else 1)
    else (s, 0)
  else (s, 0)

/-- main.cpp lines 195-201: the `->` button.  When it was clicked and
`current_image_index + 1 < image_files.size()`, the index increments, the
texture is deleted and zeroed. -/
def nextButton (clicked : Bool) (s : BrowserState) : BrowserState × Nat :=
  if clicked then
    if s.current_image_index + 1 < s.image_files.length then
      ({ s with current_image_index := s.current_image_index + 1,
                texture := 0, loadedFrom := none },
       if s.texture = 0 then 0 else 1)
    else (s, 0)
  else (s, 0)

/-- main.cpp lines 203-211, after the buttons: the title text and, when
`image_files` is nonempty, the caption
`ImGui::Text("Current media: %s", image_files[current_image_index].c_str())`
at lines 207-208 — an unchecked `std::vector::operator[]` read: with the
(post-button) index out of bounds on a nonempty list this is undefined
behavior, modelled as a crash exactly like the access at line 144.  `t` is
the post-button state, `sDraw` the state the thumbnail was drawn from at
lines 170-174, `released` the `glDeleteTextures` count of this frame. -/
def captionStep (t sDraw : BrowserState) (scanned : Bool) (attempts : Nat)
    (succeeded : Bool) (released : Nat) : BrowserState × RenderOutput :=
  if t.image_files ≠ [] then
    match t.image_files.get? t.current_image_index with
    | none =>
        (t, { scanned := scanned, loadAttempts := attempts,
              loadSucceeded := succeeded, loggedFailure := false,
              crashed := true, panelDrawn := true,
              drawTexture := sDraw.texture, drawW := sDraw.img_width,
              drawH := sDraw.img_height,
              thumbWidth := 150 * (sDraw.img_width : ℚ) / (sDraw.img_height : ℚ),
              texturesReleased := released, caption := none })
    | some c =>
        (t, { scanned := scanned, loadAttempts := attempts,
              loadSucceeded := succeeded, loggedFailure := false,
              crashed := false, panelDrawn := true,
              drawTexture := sDraw.texture, drawW := sDraw.img_width,
              drawH := sDraw.img_height,
              thumbWidth := 150 * (sDraw.img_width : ℚ) / (sDraw.img_height : ℚ),
              texturesReleased := released, caption := some c })
  else
    (t, { scanned := scanned, loadAttempts := attempts,
          loadSucceeded := succeeded, loggedFailure := false,
          crashed := false, panelDrawn := true,
          drawTexture := sDraw.texture, drawW := sDraw.img_width,
          drawH := sDraw.img_height,
          thumbWidth := 150 * (sDraw.img_width : ℚ) / (sDraw.img_height : ℚ),
          texturesReleased := released, caption := none })

/-- main.cpp lines 161-211: the drawing of the thumbnail (lines 170-174),
the two navigation buttons in source order (lines 187-201), then the
caption read (lines 207-208). -/
def drawAndButtons (prevClicked nextClicked : Bool) (s : BrowserState)
    (scanned : Bool) (attempts : Nat) (succeeded : Bool) :
    BrowserState × RenderOutput :=
  captionStep (nextButton nextClicked (prevButton prevClicked s).1).1 s
    scanned attempts succeeded
    ((prevButton prevClicked s).2 +
      (nextButton nextClicked (prevButton prevClicked s).1).2)

/-- Output of the crash path (out-of-bounds vector access at line 144,
before `BeginChild`). -/
def crashOut (scanned : Bool) : RenderOutput :=
  { scanned := scanned, loadAttempts := 0, loadSucceeded := false,
    loggedFailure := false, crashed := true, panelDrawn := false,
    drawTexture := 0, drawW := 0, drawH := 0, thumbWidth := 0,
    texturesReleased := 0, caption := none }

/-- Output of the early `return;` after a failed decode (lines 155-158). -/
def failOut (scanned : Bool) : RenderOutput :=
  { scanned := scanned, loadAttempts := 1, loadSucceeded := false,
    loggedFailure := true, crashed := false, panelDrawn := false,
    drawTexture := 0, drawW := 0, drawH := 0, thumbWidth := 0,
    texturesReleased := 0, caption := none }

/-- One call of `ShowImageSubwindow` (main.cpp lines 132-212): directory
re-scan check, lazy texture load, thumbnail drawing and button handling. -/
def renderStep (env : RenderEnv) (inp : RenderInput) (s0 : BrowserState) :
    BrowserState × RenderOutput :=
  match loadPhase env (scannedState env inp s0) with
  | LoadOutcome.crash =>
      (scannedState env inp s0, crashOut (decide (s0.last_directory ≠ inp.directory)))
  | LoadOutcome.failed s => (s, failOut (decide (s0.last_directory ≠ inp.directory)))
  | LoadOutcome.proceed s attempts succeeded =>
      drawAndButtons inp.prevClicked inp.nextClicked s
        (decide (s0.last_directory ≠ inp.directory)) attempts succeeded

/-- Iterated render calls on the persistent statics. -/
def applyInputs (env : RenderEnv) (inps : List RenderInput) (s : BrowserState) :
    BrowserState :=
  match inps with
  | [] => s
  | i :: rest => applyInputs env rest (renderStep env i s).1

/-! ### Concrete environments used by the counterexample runs -/

/-- A finite filesystem: an association list from directory path to its
entries; listed directories exist and are directories, everything else is
absent. -/
def fsOf (dirs : List (String × List DirEntry)) : FileSystem :=
  { fsExists := fun d => (dirs.find? (fun x => x.1 == d)).isSome
  , fsIsDir := fun d => (dirs.find? (fun x => x.1 == d)).isSome
  , entries := fun d => ((dirs.find? (fun x => x.1 == d)).map (fun x => x.2)).getD [] }

/-- A finite decoder table: listed paths decode to the given dimensions,
everything else fails. -/
def loadOf (tbl : List (String × (Int × Int))) : String → Option (Int × Int) :=
  fun p => (tbl.find? (fun x => x.1 == p)).map (fun x => x.2)

/-- A render input with no button pressed. -/
def quietInput (t d : String) : RenderInput :=
  { title := t, directory := d, prevClicked := false, nextClicked := false }

/-! Run shared by the directory-change analyses: browse directory `d1`
(files `d1/a.png`, `d1/b.png`), step to the second image, let it load, then
switch the `directory` argument to `d2` (files `d2/c.png`, `d2/d.png`). -/

/-- Environment bound to directory `d1`. -/
def envD1 : RenderEnv :=
  { fs := fsOf [("d1", [⟨"d1/a.png", true⟩, ⟨"d1/b.png", true⟩])]
  , load := loadOf [("d1/a.png", (4, 4)), ("d1/b.png", (6, 6)),
                    ("d2/c.png", (8, 8)), ("d2/d.png", (9, 9))]
  , newTexture := 7 }

/-- Environment bound to directory `d2`. -/
def envD2 : RenderEnv :=
  { fs := fsOf [("d2", [⟨"d2/c.png", true⟩, ⟨"d2/d.png", true⟩])]
  , load := envD1.load
  , newTexture := 8 }

/-- Frame 1: first render call, directory `d1`; scans and loads `d1/a.png`. -/
def dirChangeRun1 : BrowserState := (renderStep envD1 (quietInput "nav" "d1") initState).1

/-- Frame 2: `->` pressed; index moves to 1 and the texture is released. -/
def dirChangeRun2 : BrowserState :=
  (renderStep envD1 { quietInput "nav" "d1" with nextClicked := true } dirChangeRun1).1

/-- Frame 3: quiet frame; `d1/b.png` is decoded into a fresh texture. -/
def dirChangeRun3 : BrowserState := (renderStep envD1 (quietInput "nav" "d1") dirChangeRun2).1

/-- Frame 4: the directory argument changes to `d2`. -/
def dirChangeStep4 : BrowserState × RenderOutput :=
  renderStep envD2 (quietInput "nav" "d2") dirChangeRun3

/-- Environment bound to directory `d3`, which holds a single image. -/
def envD3 : RenderEnv :=
  { fs := fsOf [("d3", [⟨"d3/e.png", true⟩])]
  , load := loadOf [("d3/e.png", (5, 5))]
  , newTexture := 9 }

/-- An alternative frame 4: the directory argument changes from `d1` to the
one-file directory `d3` while the texture from `d1/b.png` is still held —
the missing reset leaves the stale index 1 pointing past the end of the
one-element list. -/
def dirChangeRun5 : BrowserState :=
  (renderStep envD3 (quietInput "nav" "d3") dirChangeRun3).1

/-- The following steady frame on `d3`: the directory argument matches the
stored one, no button is pressed, and a texture is held — with the stale
index still at 1. -/
def staleSteadyStep : BrowserState × RenderOutput :=
  renderStep envD3 (quietInput "nav" "d3") dirChangeRun5

/-- Environment for the decode-failure run: directory `f` holds one
recognized file whose decode fails. -/
def envFail : RenderEnv :=
  { fs := fsOf [("f", [⟨"f/bad.png", true⟩])]
  , load := loadOf []
  , newTexture := 7 }

/-- The decode-failure render call, starting from the initial statics. -/
def decodeFailStep : BrowserState × RenderOutput :=
  renderStep envFail (quietInput "nav" "f") initState

/-- Environment for the empty-directory run: directory `e` exists and holds
no files. -/
def envEmpty : RenderEnv :=
  { fs := fsOf [("e", [])]
  , load := loadOf []
  , newTexture := 7 }

/-- A render call on an empty directory, starting from the initial statics. -/
def emptyDirStep : BrowserState × RenderOutput :=
  renderStep envEmpty (quietInput "nav" "e") initState

/-- Environment seen by the render call made under title `A`. -/
def envTitleA : RenderEnv :=
  { fs := fsOf [("d", [⟨"d/x.png", true⟩])]
  , load := loadOf [("d/x.png", (10, 20))]
  , newTexture := 7 }

/-- Environment seen by the later render call made under title `B`: the same
directory path now holds a different file. -/
def envTitleB : RenderEnv :=
  { fs := fsOf [("d", [⟨"d/y.png", true⟩])]
  , load := loadOf [("d/y.png", (5, 5))]
  , newTexture := 9 }

/-- The statics after a render call under title `A` on directory `d`. -/
def stateAfterTitleA : BrowserState :=
  (renderStep envTitleA (quietInput "A" "d") initState).1

/-- The statics after a following render call under title `B`, same
directory string. -/
def stateAfterTitleB : BrowserState :=
  (renderStep envTitleB (quietInput "B" "d") stateAfterTitleA).1

/-- A directory `g` mixing recognized regular files, an unrecognized `.txt`
file, and a directory entry whose name ends in `.png`. -/
def fsC6 : FileSystem :=
  fsOf [("g", [⟨"g/a.png", true⟩, ⟨"g/b.jpg", true⟩, ⟨"g/c.txt", true⟩,
               ⟨"g/thumbs.png", false⟩])]

/-! ### Helper lemmas -/

theorem scannedState_same_dir (env : RenderEnv) (inp : RenderInput) (s : BrowserState)
    (h : inp.directory = s.last_directory) : scannedState env inp s = s := by
  unfold scannedState
  rw [if_neg]
  simp [h]

theorem scannedState_current_image_index (env : RenderEnv) (inp : RenderInput)
    (s : BrowserState) :
    (scannedState env inp s).current_image_index = s.current_image_index := by
  unfold scannedState; split <;> rfl

theorem scannedState_texture (env : RenderEnv) (inp : RenderInput) (s : BrowserState) :
    (scannedState env inp s).texture = s.texture := by
  unfold scannedState; split <;> rfl

theorem scannedState_img_height (env : RenderEnv) (inp : RenderInput) (s : BrowserState) :
    (scannedState env inp s).img_height = s.img_height := by
  unfold scannedState; split <;> rfl

theorem loadPhase_of_texture_ne (env : RenderEnv) (s : BrowserState) (h : s.texture ≠ 0) :
    loadPhase env s = LoadOutcome.proceed s 0 false := by
  unfold loadPhase
  rw [if_neg]
  intro hc
  exact h hc.1

theorem loadPhase_failed_eq (env : RenderEnv) (s s' : BrowserState)
    (h : loadPhase env s = LoadOutcome.failed s') : s' = s ∧ s.texture = 0 := by
  unfold loadPhase at h
  split at h
  · split at h
    · cases h
    · split at h
      · cases h
      · cases h
        exact ⟨rfl, ‹s.texture = 0 ∧ s.image_files ≠ []›.1⟩
  · cases h

theorem loadPhase_proceed_eq (env : RenderEnv) (s s' : BrowserState) (a : Nat) (suc : Bool)
    (h : loadPhase env s = LoadOutcome.proceed s' a suc) :
    s'.current_image_index = s.current_image_index ∧ s'.image_files = s.image_files ∧
      s'.last_directory = s.last_directory := by
  unfold loadPhase at h
  split at h
  · split at h
    · cases h
    · split at h
      · cases h
        exact ⟨rfl, rfl, rfl⟩
      · cases h
  · cases h
    exact ⟨rfl, rfl, rfl⟩

theorem loadPhase_height_inv (env : RenderEnv) (s s' : BrowserState) (a : Nat) (suc : Bool)
    (hpos : ∀ p w h, env.load p = some (w, h) → 0 < h)
    (hinv : s.texture ≠ 0 → 0 < s.img_height)
    (h : loadPhase env s = LoadOutcome.proceed s' a suc) :
    s'.texture ≠ 0 → 0 < s'.img_height := by
  unfold loadPhase at h
  split at h
  · split at h
    · cases h
    · split at h
      · cases h
        intro _
        exact hpos _ _ _ (by assumption)
      · cases h
  · cases h
    exact hinv

theorem prevButton_facts (c : Bool) (s : BrowserState) :
    (prevButton c s).1.image_files = s.image_files ∧
    (prevButton c s).1.last_directory = s.last_directory ∧
    (prevButton c s).1.img_height = s.img_height ∧
    ((prevButton c s).1.texture = s.texture ∨ (prevButton c s).1.texture = 0) := by
  unfold prevButton
  split
  · split
    · exact ⟨rfl, rfl, rfl, Or.inr rfl⟩
    · exact ⟨rfl, rfl, rfl, Or.inl rfl⟩
  · exact ⟨rfl, rfl, rfl, Or.inl rfl⟩

theorem nextButton_facts (c : Bool) (s : BrowserState) :
    (nextButton c s).1.image_files = s.image_files ∧
    (nextButton c s).1.last_directory = s.last_directory ∧
    (nextButton c s).1.img_height = s.img_height ∧
    ((nextButton c s).1.texture = s.texture ∨ (nextButton c s).1.texture = 0) := by
  unfold nextButton
  split
  · split
    · exact ⟨rfl, rfl, rfl, Or.inr rfl⟩
    · exact ⟨rfl, rfl, rfl, Or.inl rfl⟩
  · exact ⟨rfl, rfl, rfl, Or.inl rfl⟩

theorem prevButton_nav (c : Bool) (s : BrowserState)
    (h : s.current_image_index = 0 ∨ s.current_image_index < s.image_files.length) :
    (prevButton c s).1.current_image_index = 0 ∨
      (prevButton c s).1.current_image_index < (prevButton c s).1.image_files.length := by
  unfold prevButton
  split
  · split
    · show s.current_image_index - 1 = 0 ∨ s.current_image_index - 1 < s.image_files.length
      omega
    · exact h
  · exact h

theorem nextButton_nav (c : Bool) (s : BrowserState)
    (h : s.current_image_index = 0 ∨ s.current_image_index < s.image_files.length) :
    (nextButton c s).1.current_image_index = 0 ∨
      (nextButton c s).1.current_image_index < (nextButton c s).1.image_files.length := by
  unfold nextButton
  split
  · split
    · show s.current_image_index + 1 = 0 ∨ s.current_image_index + 1 < s.image_files.length
      omega
    · exact h
  · exact h

theorem prevButton_at_zero (c : Bool) (s : BrowserState)
    (h : s.current_image_index = 0) : prevButton c s = (s, 0) := by
  unfold prevButton
  split
  · rw [if_neg (by omega)]
  · rfl

theorem nextButton_at_last (c : Bool) (s : BrowserState)
    (h : s.current_image_index + 1 = s.image_files.length) : nextButton c s = (s, 0) := by
  unfold nextButton
  split
  · rw [if_neg (by omega)]
  · rfl

theorem captionStep_state (t sDraw : BrowserState) (sc : Bool) (a : Nat) (suc : Bool)
    (rel : Nat) : (captionStep t sDraw sc a suc rel).1 = t := by
  unfold captionStep
  split
  · split <;> rfl
  · rfl

theorem captionStep_draw_fields (t sDraw : BrowserState) (sc : Bool) (a : Nat)
    (suc : Bool) (rel : Nat) :
    (captionStep t sDraw sc a suc rel).2.drawTexture = sDraw.texture ∧
    (captionStep t sDraw sc a suc rel).2.drawW = sDraw.img_width ∧
    (captionStep t sDraw sc a suc rel).2.drawH = sDraw.img_height ∧
    (captionStep t sDraw sc a suc rel).2.thumbWidth =
      150 * (sDraw.img_width : ℚ) / (sDraw.img_height : ℚ) := by
  unfold captionStep
  split
  · split <;> exact ⟨rfl, rfl, rfl, rfl⟩
  · exact ⟨rfl, rfl, rfl, rfl⟩

theorem captionStep_in_range (t sDraw : BrowserState) (sc : Bool) (a : Nat) (suc : Bool)
    (rel : Nat)
    (h : t.image_files = [] ∨ t.current_image_index < t.image_files.length) :
    captionStep t sDraw sc a suc rel =
      (t, { scanned := sc, loadAttempts := a, loadSucceeded := suc,
            loggedFailure := false, crashed := false, panelDrawn := true,
            drawTexture := sDraw.texture, drawW := sDraw.img_width,
            drawH := sDraw.img_height,
            thumbWidth := 150 * (sDraw.img_width : ℚ) / (sDraw.img_height : ℚ),
            texturesReleased := rel,
            caption := t.image_files.get? t.current_image_index }) := by
  unfold captionStep
  rcases h with he | hlt
  · rw [if_neg (by simp [he]), he, List.get?_nil]
  · rw [if_pos (List.ne_nil_of_length_pos (by omega)), List.get?_eq_get hlt]

theorem drawAndButtons_state (pc nc : Bool) (s : BrowserState) (sc : Bool) (a : Nat)
    (suc : Bool) :
    (drawAndButtons pc nc s sc a suc).1 = (nextButton nc (prevButton pc s).1).1 := by
  unfold drawAndButtons
  exact captionStep_state _ _ _ _ _ _

theorem drawAndButtons_draw_fields (pc nc : Bool) (s : BrowserState) (sc : Bool)
    (a : Nat) (suc : Bool) :
    (drawAndButtons pc nc s sc a suc).2.drawTexture = s.texture ∧
    (drawAndButtons pc nc s sc a suc).2.drawW = s.img_width ∧
    (drawAndButtons pc nc s sc a suc).2.drawH = s.img_height ∧
    (drawAndButtons pc nc s sc a suc).2.thumbWidth =
      150 * (s.img_width : ℚ) / (s.img_height : ℚ) := by
  unfold drawAndButtons
  exact captionStep_draw_fields _ _ _ _ _ _

theorem drawAndButtons_aspect (pc nc : Bool) (s : BrowserState) (sc : Bool) (a : Nat)
    (suc : Bool) (h : s.texture ≠ 0 → 0 < s.img_height) :
    (drawAndButtons pc nc s sc a suc).2.drawTexture ≠ 0 →
      0 < (drawAndButtons pc nc s sc a suc).2.drawH ∧
      (drawAndButtons pc nc s sc a suc).2.thumbWidth =
        150 * ((drawAndButtons pc nc s sc a suc).2.drawW : ℚ) /
          ((drawAndButtons pc nc s sc a suc).2.drawH : ℚ) := by
  intro hdt
  obtain ⟨h1, h2, h3, h4⟩ := drawAndButtons_draw_fields pc nc s sc a suc
  rw [h1] at hdt
  rw [h3, h4, h2]
  exact ⟨h hdt, rfl⟩

theorem drawAndButtons_files (pc nc : Bool) (s : BrowserState) (sc : Bool) (a : Nat)
    (suc : Bool) :
    (drawAndButtons pc nc s sc a suc).1.image_files = s.image_files ∧
    (drawAndButtons pc nc s sc a suc).1.last_directory = s.last_directory := by
  rw [drawAndButtons_state]
  refine ⟨?_, ?_⟩
  · rw [(nextButton_facts nc (prevButton pc s).1).1, (prevButton_facts pc s).1]
  · rw [(nextButton_facts nc (prevButton pc s).1).2.1, (prevButton_facts pc s).2.1]

theorem drawAndButtons_nav (pc nc : Bool) (s : BrowserState) (sc : Bool) (a : Nat)
    (suc : Bool)
    (h : s.current_image_index = 0 ∨ s.current_image_index < s.image_files.length) :
    (drawAndButtons pc nc s sc a suc).1.current_image_index = 0 ∨
      (drawAndButtons pc nc s sc a suc).1.current_image_index <
        (drawAndButtons pc nc s sc a suc).1.image_files.length := by
  rw [drawAndButtons_state]
  exact nextButton_nav nc (prevButton pc s).1 (prevButton_nav pc s h)

theorem drawAndButtons_height_inv (pc nc : Bool) (s : BrowserState) (sc : Bool) (a : Nat)
    (suc : Bool) (h : s.texture ≠ 0 → 0 < s.img_height) :
    (drawAndButtons pc nc s sc a suc).1.texture ≠ 0 →
      0 < (drawAndButtons pc nc s sc a suc).1.img_height := by
  rw [drawAndButtons_state]
  intro ht
  rw [(nextButton_facts nc (prevButton pc s).1).2.2.1, (prevButton_facts pc s).2.2.1]
  rcases (nextButton_facts nc (prevButton pc s).1).2.2.2 with h2 | h2
  · rw [h2] at ht
    rcases (prevButton_facts pc s).2.2.2 with h1 | h1
    · rw [h1] at ht
      exact h ht
    · exact absurd h1 ht
  · exact absurd h2 ht

theorem renderStep_nav_inv (env : RenderEnv) (inp : RenderInput) (s : BrowserState)
    (hdir : inp.directory = s.last_directory) :
    (renderStep env inp s).1.image_files = s.image_files ∧
    (renderStep env inp s).1.last_directory = s.last_directory ∧
    ((s.current_image_index = 0 ∨ s.current_image_index < s.image_files.length) →
      ((renderStep env inp s).1.current_image_index = 0 ∨
        (renderStep env inp s).1.current_image_index <
          (renderStep env inp s).1.image_files.length)) := by
  unfold renderStep
  rw [scannedState_same_dir env inp s hdir]
  cases hl : loadPhase env s with
  | crash => exact ⟨rfl, rfl, fun h => h⟩
  | failed s' =>
      obtain ⟨rfl, -⟩ := loadPhase_failed_eq env s s' hl
      exact ⟨rfl, rfl, fun h => h⟩
  | proceed s' a suc =>
      obtain ⟨hidx, hfiles, hdir2⟩ := loadPhase_proceed_eq env s s' a suc hl
      refine ⟨?_, ?_, ?_⟩
      · rw [(drawAndButtons_files _ _ s' _ a suc).1, hfiles]
      · rw [(drawAndButtons_files _ _ s' _ a suc).2, hdir2]
      · intro h
        exact drawAndButtons_nav _ _ s' _ a suc (by rw [hidx, hfiles]; exact h)

theorem drawAndButtons_prev_irrelevant (b b' nc : Bool) (s : BrowserState) (sc : Bool)
    (a : Nat) (suc : Bool) (h : s.current_image_index = 0) :
    drawAndButtons b nc s sc a suc = drawAndButtons b' nc s sc a suc := by
  unfold drawAndButtons
  rw [prevButton_at_zero b s h, prevButton_at_zero b' s h]

theorem drawAndButtons_next_irrelevant (b b' : Bool) (s : BrowserState) (sc : Bool)
    (a : Nat) (suc : Bool) (h : s.current_image_index + 1 = s.image_files.length) :
    drawAndButtons false b s sc a suc = drawAndButtons false b' s sc a suc := by
  unfold drawAndButtons
  rw [show prevButton false s = (s, 0) from rfl,
      nextButton_at_last b s h, nextButton_at_last b' s h]

theorem EndsWith_iff (s suffi : String) :
    EndsWith s suffi = true ↔ suffi.toList <:+ s.toList := by
  unfold EndsWith
  rw [Bool.and_eq_true, decide_eq_true_iff, decide_eq_true_iff]
  constructor
  · rintro ⟨hle, hdrop⟩
    exact List.suffix_iff_eq_drop.mpr hdrop.symm
  · intro h
    refine ⟨h.length_le, ?_⟩
    exact (List.suffix_iff_eq_drop.mp h).symm

theorem hasImageSuffix_iff (p : String) :
    hasImageSuffix p = true ↔
      (".png".toList <:+ p.toList ∨ ".jpg".toList <:+ p.toList ∨
        ".jpeg".toList <:+ p.toList) := by
  unfold hasImageSuffix
  rw [Bool.or_eq_true, Bool.or_eq_true, EndsWith_iff, EndsWith_iff, EndsWith_iff]
  exact or_assoc

theorem loadOf_height_pos (tbl : List (String × (Int × Int)))
    (h : ∀ x ∈ tbl, 0 < x.2.2) :
    ∀ p w hh, loadOf tbl p = some (w, hh) → 0 < hh := by
  intro p w hh hp
  unfold loadOf at hp
  cases hf : tbl.find? (fun x => x.1 == p) with
  | none => rw [hf] at hp; cases hp
  | some x =>
      rw [hf] at hp
      simp only [Option.map_some', Option.some.injEq] at hp
      have hx := h x (List.mem_of_find?_eq_some hf)
      rw [hp] at hx
      exact hx

/-! ### Claim theorems -/

/-- C1.  The claim fails on the code: when the `directory` argument changes
(frame 4 of the run: `d1` with index 1 and a held texture, then `d2`),
`image_files` is indeed recomputed, but `current_image_index` stays 1
instead of resetting to 0, the held texture name 7 is kept instead of being
released, and no `glDeleteTextures` call happens.  Lines 135-138 of
main.cpp update only `image_files` and `last_directory`. -/
theorem directory_change_keeps_index_and_texture :
    dirChangeStep4.1.image_files = ["d2/c.png", "d2/d.png"] ∧
    dirChangeStep4.1.current_image_index = 1 ∧
    dirChangeStep4.1.texture = 7 ∧
    dirChangeStep4.2.texturesReleased = 0 := by decide

/-- C2.  The claim fails on the code: after the directory change of frame 4,
a texture is still held, it was decoded from `d1/b.png` (an entry of the
previously bound directory's list), while `images[current_index]` is now
`d2/d.png`. -/
theorem texture_stale_after_directory_change :
    dirChangeStep4.1.texture ≠ 0 ∧
    dirChangeStep4.1.loadedFrom = some "d1/b.png" ∧
    dirChangeStep4.1.image_files.get? dirChangeStep4.1.current_image_index =
      some "d2/d.png" := by decide

/-- C4, counterexample.  When the decode of `images[current_index]` fails,
the call logs and returns at line 157 *before* `ImGui::BeginChild`: the
panel is not rendered at all, contradicting "renders the panel with no
image". -/
theorem decode_failure_skips_panel :
    decodeFailStep.2.loggedFailure = true ∧
    decodeFailStep.2.panelDrawn = false := by decide

/-- C5, counterexample.  A render call on an existing empty directory draws
the thumbnail (line 174 is reached, `panelDrawn`), yet the divisor
`img_height` of the aspect-ratio division at line 171 is 0 at that point:
the divisor *is* zero when no texture has ever been loaded. -/
theorem thumbnail_divisor_zero_when_no_texture :
    emptyDirStep.2.panelDrawn = true ∧
    emptyDirStep.2.drawH = 0 := by decide

/-- C7, counterexample.  The statics of `ShowImageSubwindow` are not keyed
by `title`: a call under title `B` reads the image list written by the
earlier call under title `A` (it skips the re-scan because the shared
`last_directory` already matches), even though scanning `d` in `B`'s own
environment would yield a different list. -/
theorem titles_share_state :
    stateAfterTitleB.image_files = stateAfterTitleA.image_files ∧
    stateAfterTitleB.image_files = ["d/x.png"] ∧
    GetImageFiles envTitleB.fs "d" = ["d/y.png"] := by decide

/-- C7, amended.  All calls to `ShowImageSubwindow` operate on the single
process-wide set of statics regardless of the `title` argument: the
resulting `BrowserState` (and every observable effect) of a render call does
not depend on the title at all. -/
theorem renderStep_title_independent (env : RenderEnv) (inp : RenderInput)
    (s : BrowserState) (t1 t2 : String) :
    renderStep env { inp with title := t1 } s =
      renderStep env { inp with title := t2 } s := rfl

/-- C3.  Under render calls that keep the directory argument equal to the
stored one, the image list never changes, an in-range index (0 counting as
in range for the empty list) stays in range after every call, and when the
list is empty the index never moves.  The guards at lines 188 and 196 of
main.cpp keep `current_image_index` inside `[0, image_files.size())`. -/
theorem nav_index_in_range (env : RenderEnv) (inps : List RenderInput) (s : BrowserState)
    (hdirs : ∀ i ∈ inps, i.directory = s.last_directory)
    (hrange : s.current_image_index = 0 ∨
      s.current_image_index < s.image_files.length) :
    (applyInputs env inps s).image_files = s.image_files ∧
    ((applyInputs env inps s).current_image_index = 0 ∨
      (applyInputs env inps s).current_image_index <
        (applyInputs env inps s).image_files.length) ∧
    (s.image_files = [] →
      (applyInputs env inps s).current_image_index = s.current_image_index) := by
  induction inps generalizing s with
  | nil => exact ⟨rfl, hrange, fun _ => rfl⟩
  | cons i rest ih =>
      have hd : i.directory = s.last_directory := hdirs i (List.mem_cons_self i rest)
      have step := renderStep_nav_inv env i s hd
      have hdirs' : ∀ j ∈ rest, j.directory = (renderStep env i s).1.last_directory := by
        intro j hj
        rw [step.2.1]
        exact hdirs j (List.mem_cons_of_mem i hj)
      have hrange' : (renderStep env i s).1.current_image_index = 0 ∨
          (renderStep env i s).1.current_image_index <
            (renderStep env i s).1.image_files.length := step.2.2 hrange
      have ih2 := ih (renderStep env i s).1 hdirs' hrange'
      refine ⟨?_, ?_, ?_⟩
      · show (applyInputs env rest (renderStep env i s).1).image_files = s.image_files
        rw [ih2.1, step.1]
      · exact ih2.2.1
      · intro hempty
        have hfe : (renderStep env i s).1.image_files = [] := by
          rw [step.1]
          exact hempty
        have h0 : s.current_image_index = 0 := by
          rcases hrange with h | h
          · exact h
          · rw [hempty] at h
            simp at h
        have h0Next : (renderStep env i s).1.current_image_index = 0 := by
          rcases hrange' with h | h
          · exact h
          · rw [hfe] at h
            simp at h
        show (applyInputs env rest (renderStep env i s).1).current_image_index =
          s.current_image_index
        rw [ih2.2.2 hfe, h0Next, h0]

/-- C8.  Pressing `<-` when `current_image_index = 0`, or `->` when
`current_image_index + 1 = image_files.size()` (with `<-` not pressed),
has no effect whatsoever: the whole render call — resulting state and all
observable effects, texture releases included — is identical to the same
call with the button not pressed, so nothing is released and no reload is
triggered on the following frame beyond what that frame would do anyway. -/
theorem nav_noop_at_bounds (env : RenderEnv) (inp : RenderInput) (s : BrowserState)
    (hdir : inp.directory = s.last_directory) :
    (s.current_image_index = 0 →
      renderStep env { inp with prevClicked := true } s =
        renderStep env { inp with prevClicked := false } s) ∧
    (inp.prevClicked = false → s.current_image_index + 1 = s.image_files.length →
      renderStep env { inp with nextClicked := true } s =
        renderStep env { inp with nextClicked := false } s) := by
  constructor
  · intro h0
    unfold renderStep
    rw [scannedState_same_dir env { inp with prevClicked := true } s hdir,
        scannedState_same_dir env { inp with prevClicked := false } s hdir]
    cases hl : loadPhase env s with
    | crash => rfl
    | failed s' => rfl
    | proceed s' a suc =>
        obtain ⟨hidx, -, -⟩ := loadPhase_proceed_eq env s s' a suc hl
        show drawAndButtons true inp.nextClicked s'
            (decide (s.last_directory ≠ inp.directory)) a suc =
          drawAndButtons false inp.nextClicked s'
            (decide (s.last_directory ≠ inp.directory)) a suc
        exact drawAndButtons_prev_irrelevant true false inp.nextClicked s' _ a suc
          (by rw [hidx]; exact h0)
  · intro hp hlast
    unfold renderStep
    rw [scannedState_same_dir env { inp with nextClicked := true } s hdir,
        scannedState_same_dir env { inp with nextClicked := false } s hdir]
    cases hl : loadPhase env s with
    | crash => rfl
    | failed s' => rfl
    | proceed s' a suc =>
        obtain ⟨hidx, hfiles, -⟩ := loadPhase_proceed_eq env s s' a suc hl
        show drawAndButtons inp.prevClicked true s'
            (decide (s.last_directory ≠ inp.directory)) a suc =
          drawAndButtons inp.prevClicked false s'
            (decide (s.last_directory ≠ inp.directory)) a suc
        rw [hp]
        exact drawAndButtons_next_irrelevant true false s' _ a suc
          (by rw [hidx, hfiles]; exact hlast)

/-- C10, counterexample.  A steady frame — directory argument equal to the
stored one, no button pressed, a texture held — is *not* always a
well-defined unchanged redraw: in the stale state left by a directory
change from `d1` to the one-file directory `d3` (index still 1, texture
still held, because lines 135-138 reset neither), the caption read
`image_files[current_image_index]` at main.cpp lines 207-208 indexes past
the end of the one-element list — undefined behavior. -/
theorem steady_frame_stale_index_crashes :
    dirChangeRun5.last_directory = "d3" ∧
    (quietInput "nav" "d3").directory = "d3" ∧
    dirChangeRun5.texture = 7 ∧
    dirChangeRun5.image_files = ["d3/e.png"] ∧
    dirChangeRun5.current_image_index = 1 ∧
    staleSteadyStep.2.crashed = true := by decide

/-- C10, amended.  A render call with the directory unchanged, no button
pressed, a texture already held, and the stored index within the image list
(or the list empty) is a pure redraw: the statics come back exactly as they
were, no re-scan happens, no decode is attempted, nothing is released and
nothing is created, and the caption prints `image_files[current_image_index]`.
The in-range hypothesis is forced by the counterexample: with a stale
out-of-range index (reachable through the missing directory-change reset)
the caption read at lines 207-208 is undefined behavior instead. -/
theorem renderStep_steady_frame (env : RenderEnv) (inp : RenderInput) (s : BrowserState)
    (hdir : inp.directory = s.last_directory) (htex : s.texture ≠ 0)
    (hp : inp.prevClicked = false) (hn : inp.nextClicked = false)
    (hidx : s.image_files = [] ∨ s.current_image_index < s.image_files.length) :
    renderStep env inp s =
      (s, { scanned := false, loadAttempts := 0, loadSucceeded := false,
            loggedFailure := false, crashed := false, panelDrawn := true,
            drawTexture := s.texture, drawW := s.img_width, drawH := s.img_height,
            thumbWidth := 150 * (s.img_width : ℚ) / (s.img_height : ℚ),
            texturesReleased := 0,
            caption := s.image_files.get? s.current_image_index }) := by
  unfold renderStep
  rw [scannedState_same_dir env inp s hdir, loadPhase_of_texture_ne env s htex]
  show drawAndButtons inp.prevClicked inp.nextClicked s
      (decide (s.last_directory ≠ inp.directory)) 0 false = _
  rw [hp, hn, hdir]
  show captionStep s s (decide (s.last_directory ≠ s.last_directory)) 0 false (0 + 0) = _
  rw [captionStep_in_range s s (decide (s.last_directory ≠ s.last_directory)) 0 false
      (0 + 0) hidx]
  simp

/-- C4, amended.  When the decode of `images[current_index]` fails, the call
logs the failure, leaves `texture = 0`, leaves `current_image_index`
unchanged, attempts the load exactly once, and neither crashes nor aborts —
but it returns early at line 157, so the panel is *not* rendered on that
frame. -/
theorem renderStep_decode_failure (env : RenderEnv) (inp : RenderInput) (s : BrowserState)
    (p : String) (htex : s.texture = 0)
    (hget : (scannedState env inp s).image_files.get? s.current_image_index = some p)
    (hload : env.load p = none) :
    renderStep env inp s =
      (scannedState env inp s,
        failOut (decide (s.last_directory ≠ inp.directory))) ∧
    (renderStep env inp s).1.current_image_index = s.current_image_index ∧
    (renderStep env inp s).1.texture = 0 ∧
    (renderStep env inp s).2.panelDrawn = false ∧
    (renderStep env inp s).2.crashed = false ∧
    (renderStep env inp s).2.loadAttempts = 1 ∧
    (renderStep env inp s).2.loggedFailure = true := by
  have hne : (scannedState env inp s).image_files ≠ [] := by
    intro he
    rw [he] at hget
    cases hc : s.current_image_index <;> rw [hc] at hget <;> cases hget
  have hl : loadPhase env (scannedState env inp s) =
      LoadOutcome.failed (scannedState env inp s) := by
    unfold loadPhase
    rw [if_pos ⟨by rw [scannedState_texture]; exact htex, hne⟩,
        scannedState_current_image_index]
    simp only [hget, hload]
  have hmain : renderStep env inp s =
      (scannedState env inp s,
        failOut (decide (s.last_directory ≠ inp.directory))) := by
    unfold renderStep
    rw [hl]
  refine ⟨hmain, ?_, ?_, ?_, ?_, ?_, ?_⟩ <;> rw [hmain]
  · exact scannedState_current_image_index env inp s
  · rw [scannedState_texture]
    exact htex
  · rfl
  · rfl
  · rfl
  · rfl

/-- C5, amended.  Whenever the thumbnail is drawn while a texture is held,
the divisor of the aspect-ratio division is the held texture's native
height, which is positive (given that the decoder only reports positive
heights), and the displayed width is the fixed height 150 scaled by the
native aspect ratio; the dimension invariant is re-established for the next
frame.  When no texture is held, the division still happens but with the
stale divisor (0 on a fresh state) — see the counterexample. -/
theorem renderStep_thumbnail_aspect (env : RenderEnv) (inp : RenderInput) (s : BrowserState)
    (hpos : ∀ p w h, env.load p = some (w, h) → 0 < h)
    (hinv : s.texture ≠ 0 → 0 < s.img_height) :
    ((renderStep env inp s).2.panelDrawn = true →
      (renderStep env inp s).2.drawTexture ≠ 0 →
      0 < (renderStep env inp s).2.drawH ∧
        (renderStep env inp s).2.thumbWidth =
          150 * ((renderStep env inp s).2.drawW : ℚ) /
            ((renderStep env inp s).2.drawH : ℚ)) ∧
    ((renderStep env inp s).1.texture ≠ 0 →
      0 < (renderStep env inp s).1.img_height) := by
  have hinv1 : (scannedState env inp s).texture ≠ 0 →
      0 < (scannedState env inp s).img_height := by
    rw [scannedState_texture, scannedState_img_height]
    exact hinv
  unfold renderStep
  cases hl : loadPhase env (scannedState env inp s) with
  | crash =>
      refine ⟨?_, hinv1⟩
      intro hpd
      exact absurd hpd (by simp [crashOut])
  | failed s' =>
      obtain ⟨rfl, -⟩ := loadPhase_failed_eq env _ s' hl
      refine ⟨?_, hinv1⟩
      intro hpd
      exact absurd hpd (by simp [failOut])
  | proceed s' a suc =>
      have hinv2 : s'.texture ≠ 0 → 0 < s'.img_height :=
        loadPhase_height_inv env _ s' a suc hpos hinv1 hl
      refine ⟨?_, drawAndButtons_height_inv _ _ s' _ a suc hinv2⟩
      intro _ hdt
      exact drawAndButtons_aspect inp.prevClicked inp.nextClicked s'
        (decide (s.last_directory ≠ inp.directory)) a suc hinv2 hdt

/-- C6.  `GetImageFiles` returns the empty list when the directory does not
exist or is not a directory, and otherwise returns exactly the paths of the
regular-file entries whose path string ends (case-sensitively) in `.png`,
`.jpg` or `.jpeg`: every such entry appears, and nothing else does. -/
theorem GetImageFiles_spec (fs : FileSystem) (d : String) :
    (¬ (fs.fsExists d = true ∧ fs.fsIsDir d = true) → GetImageFiles fs d = []) ∧
    (fs.fsExists d = true → fs.fsIsDir d = true → ∀ p : String,
      p ∈ GetImageFiles fs d ↔
        ∃ e ∈ fs.entries d, e.path = p ∧ e.isRegularFile = true ∧
          (".png".toList <:+ p.toList ∨ ".jpg".toList <:+ p.toList ∨
            ".jpeg".toList <:+ p.toList)) := by
  constructor
  · intro h
    unfold GetImageFiles
    have hcond : (!fs.fsExists d || !fs.fsIsDir d) = true := by
      cases hA : fs.fsExists d <;> cases hB : fs.fsIsDir d <;> simp_all
    rw [if_pos hcond]
  · intro hA hB p
    unfold GetImageFiles
    rw [if_neg (by simp [hA, hB])]
    simp only [List.mem_map, List.mem_filter]
    constructor
    · rintro ⟨e, ⟨he, hf⟩, rfl⟩
      rw [Bool.and_eq_true, hasImageSuffix_iff] at hf
      exact ⟨e, he, rfl, hf.1, hf.2⟩
    · rintro ⟨e, he, rfl, hreg, hsuf⟩
      refine ⟨e, ⟨he, ?_⟩, rfl⟩
      rw [Bool.and_eq_true, hasImageSuffix_iff]
      exact ⟨hreg, hsuf⟩

/-- C9.  `getDataPath` returns the first candidate, in the fixed order
bundle-resources (when present), `cwd/data`, then the three system-wide
install locations, that exists and is a directory; when none does, it falls
back to `cwd/data` regardless of existence. -/
theorem getDataPath_first_existing (fs : FileSystem) (b : Option String) (cwd : String) :
    getDataPath fs b cwd =
      ((b.toList ++ joinPath cwd "data" :: systemPaths).find?
          (fun p => existsDir fs p)).getD (joinPath cwd "data") := by
  have hrest : getDataPathRest fs cwd =
      ((joinPath cwd "data" :: systemPaths).find? (fun p => existsDir fs p)).getD
        (joinPath cwd "data") := by
    unfold getDataPathRest
    by_cases h : existsDir fs (joinPath cwd "data") = true
    · rw [if_pos h, List.find?_cons_of_pos _ h]
      rfl
    · have h' : existsDir fs (joinPath cwd "data") = false := by
        cases hx : existsDir fs (joinPath cwd "data")
        · rfl
        · exact absurd hx h
      rw [if_neg (by simp [h']), if_neg (by simp [h']),
          List.find?_cons_of_neg _ (by simp [h'])]
      cases hf : systemPaths.find? (fun p => existsDir fs p) <;> simp [hf]
  cases b with
  | none => simpa using hrest
  | some r =>
      unfold getDataPath
      show (if existsDir fs r = true then r else getDataPathRest fs cwd) =
        ((List.find? (fun p => existsDir fs p)
            ((some r).toList ++ joinPath cwd "data" :: systemPaths)).getD
          (joinPath cwd "data"))
      by_cases h : existsDir fs r = true
      · rw [if_pos h]
        simp [List.find?_cons_of_pos _ h]
      · have h' : existsDir fs r = false := by
          cases hx : existsDir fs r
          · rfl
          · exact absurd hx h
        rw [if_neg (by simp [h']), hrest]
        have hfind : List.find? (fun p => existsDir fs p)
            (r :: joinPath cwd "data" :: systemPaths) =
            List.find? (fun p => existsDir fs p) (joinPath cwd "data" :: systemPaths) :=
          List.find?_cons_of_neg _ (by simp [h'])
        rw [show (some r).toList ++ joinPath cwd "data" :: systemPaths =
            r :: joinPath cwd "data" :: systemPaths from rfl, hfind]

/-! ### Witnesses -/

/-- Witness for C3 at a concrete state and input sequence. -/
theorem nav_index_in_range_witness :
    (dirChangeRun1.current_image_index = 0 ∨
      dirChangeRun1.current_image_index < dirChangeRun1.image_files.length) ∧
    ((applyInputs envD1
        [{ quietInput "nav" "d1" with nextClicked := true },
         { quietInput "nav" "d1" with nextClicked := true },
         { quietInput "nav" "d1" with prevClicked := true }]
        dirChangeRun1).current_image_index = 0 ∨
      (applyInputs envD1
        [{ quietInput "nav" "d1" with nextClicked := true },
         { quietInput "nav" "d1" with nextClicked := true },
         { quietInput "nav" "d1" with prevClicked := true }]
        dirChangeRun1).current_image_index <
        (applyInputs envD1
          [{ quietInput "nav" "d1" with nextClicked := true },
           { quietInput "nav" "d1" with nextClicked := true },
           { quietInput "nav" "d1" with prevClicked := true }]
          dirChangeRun1).image_files.length) :=
  ⟨by decide,
   (nav_index_in_range envD1
      [{ quietInput "nav" "d1" with nextClicked := true },
       { quietInput "nav" "d1" with nextClicked := true },
       { quietInput "nav" "d1" with prevClicked := true }]
      dirChangeRun1 (by decide) (by decide)).2.1⟩

/-- Witness for C4's amended theorem on the concrete failing decode. -/
theorem renderStep_decode_failure_witness :
    envFail.load "f/bad.png" = none ∧
    renderStep envFail (quietInput "nav" "f") initState =
      (scannedState envFail (quietInput "nav" "f") initState,
        failOut (decide (initState.last_directory ≠ (quietInput "nav" "f").directory))) :=
  ⟨by decide,
   (renderStep_decode_failure envFail (quietInput "nav" "f") initState "f/bad.png"
      (by decide) (by decide) (by decide)).1⟩

/-- Witness for C5's amended theorem on a frame that loads `d1/a.png`. -/
theorem renderStep_thumbnail_aspect_witness :
    (initState.texture ≠ 0 → 0 < initState.img_height) ∧
    0 < (renderStep envD1 (quietInput "nav" "d1") initState).2.drawH :=
  ⟨by decide,
   ((renderStep_thumbnail_aspect envD1 (quietInput "nav" "d1") initState
      (loadOf_height_pos _ (by decide)) (by decide)).1 (by decide) (by decide)).1⟩

/-- Witness for C6 on the concrete mixed directory `g`. -/
theorem GetImageFiles_spec_witness :
    fsC6.fsExists "g" = true ∧ fsC6.fsIsDir "g" = true ∧
    ("g/a.png" ∈ GetImageFiles fsC6 "g" ↔
      ∃ e ∈ fsC6.entries "g", e.path = "g/a.png" ∧ e.isRegularFile = true ∧
        (".png".toList <:+ "g/a.png".toList ∨ ".jpg".toList <:+ "g/a.png".toList ∨
          ".jpeg".toList <:+ "g/a.png".toList)) :=
  ⟨by decide, by decide,
   (GetImageFiles_spec fsC6 "g").2 (by decide) (by decide) "g/a.png"⟩

/-- Witness for C8 on a concrete state with the index at the left bound. -/
theorem nav_noop_at_bounds_witness :
    dirChangeRun1.current_image_index = 0 ∧
    renderStep envD1 { quietInput "nav" "d1" with prevClicked := true } dirChangeRun1 =
      renderStep envD1 { quietInput "nav" "d1" with prevClicked := false } dirChangeRun1 :=
  ⟨by decide,
   (nav_noop_at_bounds envD1 (quietInput "nav" "d1") dirChangeRun1 (by decide)).1
     (by decide)⟩

/-- Witness for C10's amended theorem on a concrete steady frame with the
index in range. -/
theorem renderStep_steady_frame_witness :
    (dirChangeRun1.texture ≠ 0 ∧
      (dirChangeRun1.image_files = [] ∨
        dirChangeRun1.current_image_index < dirChangeRun1.image_files.length)) ∧
    renderStep envD1 (quietInput "nav" "d1") dirChangeRun1 =
      (dirChangeRun1,
        { scanned := false, loadAttempts := 0, loadSucceeded := false,
          loggedFailure := false, crashed := false, panelDrawn := true,
          drawTexture := dirChangeRun1.texture, drawW := dirChangeRun1.img_width,
          drawH := dirChangeRun1.img_height,
          thumbWidth := 150 * (dirChangeRun1.img_width : ℚ) /
            (dirChangeRun1.img_height : ℚ),
          texturesReleased := 0,
          caption :=
            dirChangeRun1.image_files.get? dirChangeRun1.current_image_index }) :=
  ⟨⟨by decide, by decide⟩,
   renderStep_steady_frame envD1 (quietInput "nav" "d1") dirChangeRun1
     (by decide) (by decide) rfl rfl (by decide)⟩

end ImguiApp
